import Mathlib

/-!
Shallow embedding of the hy-ocr-app-python repository (src/ocr_utils.py,
src/ocr_web_app.py, src/test/draw_bookshelf_blocks.py) and proofs about its
coordinate-conversion, parsing, rescaling, annotation and error-handling
behaviour.

Conventions of the embedding:
* Python floats are modelled as exact rationals (ℚ).  All concrete values
  appearing below are small decimals for which exact rational arithmetic and
  IEEE double arithmetic agree on the stated integer results.
* Python `int(x)` (truncation toward zero) is modelled by `pyInt`.
* Python byte strings are modelled as `List ℕ` (one entry per byte).
* Fallible Python code (code that can raise) is modelled with `Except`;
  pure library code that never raises is modelled by total functions.
* `\d` and `str.strip()` are modelled over the ASCII digits/whitespace that
  the OCR output alphabet uses.
-/

namespace OcrApp

/-- ocr_utils.py line 30: `HUNYUAN_COORD_RANGE = 1000`. -/
def HUNYUAN_COORD_RANGE : ℕ := 1000

/-- Python `int(q)` on a real-valued argument: truncation toward zero. -/
def pyInt (q : ℚ) : ℤ := if 0 ≤ q then ⌊q⌋ else ⌈q⌉

/-- ocr_utils.py lines 33-47: the `TextBlock` dataclass.  Normalized
coordinates are floats (modelled as ℚ); pixel coordinates are `Optional`
with default `None` and, whenever this program fills them in, are values of
`int(...)`, hence modelled as `Option ℤ`. -/
structure TextBlock where
  text : String
  norm_x1 : ℚ
  norm_y1 : ℚ
  norm_x2 : ℚ
  norm_y2 : ℚ
  pixel_x1 : Option ℤ := none
  pixel_y1 : Option ℤ := none
  pixel_x2 : Option ℤ := none
  pixel_y2 : Option ℤ := none
deriving DecidableEq, Repr

/-- ocr_utils.py lines 73-78: the `TextBlock.pixel_width` property. -/
def TextBlock.pixel_width (b : TextBlock) : Option ℤ :=
  match b.pixel_x1, b.pixel_x2 with
  | some a, some c => some (max 0 (c - a))
  | _, _ => none

/-- ocr_utils.py lines 80-85: the `TextBlock.pixel_height` property. -/
def TextBlock.pixel_height (b : TextBlock) : Option ℤ :=
  match b.pixel_y1, b.pixel_y2 with
  | some a, some c => some (max 0 (c - a))
  | _, _ => none

/-- ocr_utils.py lines 87-90: the `TextBlock.norm_width` property. -/
def TextBlock.norm_width (b : TextBlock) : ℚ := max 0 (b.norm_x2 - b.norm_x1)

/-- ocr_utils.py lines 92-95: the `TextBlock.norm_height` property. -/
def TextBlock.norm_height (b : TextBlock) : ℚ := max 0 (b.norm_y2 - b.norm_y1)

/-- ocr_utils.py lines 132-154: `normalized_to_pixel`.  Computes
`scale = dimension / coord_range` by true division and truncates
`norm * scale` to an integer with `int(...)`. -/
def normalized_to_pixel (norm_x norm_y : ℚ) (image_width image_height : ℕ)
    (coord_range : ℕ) : ℤ × ℤ :=
  let scale_x : ℚ := (image_width : ℚ) / (coord_range : ℚ)
  let scale_y : ℚ := (image_height : ℚ) / (coord_range : ℚ)
  (pyInt (norm_x * scale_x), pyInt (norm_y * scale_y))

/-- ocr_utils.py lines 157-179: `pixel_to_normalized`. -/
def pixel_to_normalized (pixel_x pixel_y : ℤ) (image_width image_height : ℕ)
    (coord_range : ℕ) : ℚ × ℚ :=
  let scale_x : ℚ := (coord_range : ℚ) / (image_width : ℚ)
  let scale_y : ℚ := (coord_range : ℚ) / (image_height : ℚ)
  ((pixel_x : ℚ) * scale_x, (pixel_y : ℚ) * scale_y)

/-- ocr_utils.py lines 182-198: `get_scale_factors`. -/
def get_scale_factors (image_width image_height : ℕ) (coord_range : ℕ) : ℚ × ℚ :=
  ((image_width : ℚ) / (coord_range : ℚ), (image_height : ℚ) / (coord_range : ℚ))

/-- ocr_utils.py lines 201-238: `convert_blocks_to_pixels`.  Builds a brand-new
`TextBlock` for every input block (the loop body constructs `TextBlock(...)`
and never assigns to any field of the input, so a pure map is a faithful
model), copying text and normalized coordinates and filling each pixel
coordinate with `int(norm * scale)`. -/
def convert_blocks_to_pixels (blocks : List TextBlock)
    (image_width image_height : ℕ) (coord_range : ℕ) : List TextBlock :=
  let s := get_scale_factors image_width image_height coord_range
  blocks.map fun block =>
    { text := block.text
      norm_x1 := block.norm_x1
      norm_y1 := block.norm_y1
      norm_x2 := block.norm_x2
      norm_y2 := block.norm_y2
      pixel_x1 := some (pyInt (block.norm_x1 * s.1))
      pixel_y1 := some (pyInt (block.norm_y1 * s.2))
      pixel_x2 := some (pyInt (block.norm_x2 * s.1))
      pixel_y2 := some (pyInt (block.norm_y2 * s.2)) }

/-- ocr_utils.py lines 383-399: `rescale_blocks_to_image`, the
backwards-compatibility wrapper; its whole body is a single call to
`convert_blocks_to_pixels(blocks, image_size[0], image_size[1])` with the
default coordinate range. -/
def rescale_blocks_to_image (blocks : List TextBlock) (image_size : ℕ × ℕ) :
    List TextBlock :=
  convert_blocks_to_pixels blocks image_size.1 image_size.2 HUNYUAN_COORD_RANGE

/-! ### The OCR content parser (ocr_utils.py lines 98-129)

`parse_ocr_content` scans its input with `re.finditer` for the pattern
`([^()]+?)\(([-+]?\d+(?:\.\d+)?),([-+]?\d+(?:\.\d+)?)\),\(([-+]?\d+(?:\.\d+)?),([-+]?\d+(?:\.\d+)?)\)`.
The embedding below implements exactly the scanning behaviour of that
pattern on a character list:

* a number is an optional sign, a maximal run of digits, and an optional
  fractional part (`.` plus a maximal digit run).  Maximal munch agrees
  with the regex: when the engine would backtrack over `\d+` or drop a
  matched fractional part, the next character is a digit or a dot and the
  required following `,` or `)` can never match, so backtracking there
  never produces a match that maximal munch misses;
* the lazy group `([^()]+?)` tries the coordinate tail after every prefix
  of a parenthesis-free run; since the tail starts with a literal `(`, the
  tail can only succeed at the first `(` ending the run, which is what
  `matchFrom` implements by trying the tail after every consumed character;
* `finditer` yields leftmost non-overlapping matches and, where no match
  starts, slides one position to the right (`scanAux`).
-/

/-- ASCII whitespace stripped by Python `str.strip()`. -/
def isPyWhitespace (c : Char) : Bool :=
  c = ' ' || c = '\t' || c = '\n' || c = '\r' || c = '\x0b' || c = '\x0c'

/-- Python `str.strip()` on a character list. -/
def pyStrip (cs : List Char) : List Char :=
  ((cs.dropWhile isPyWhitespace).reverse.dropWhile isPyWhitespace).reverse

/-- Accumulate a maximal digit run: returns value, digit count, rest. -/
def digitsAux : List Char → ℕ → ℕ → ℕ × ℕ × List Char
  | c :: cs, acc, n =>
    if c.isDigit then digitsAux cs (10 * acc + (c.toNat - 48)) (n + 1)
    else (acc, n, c :: cs)
  | [], acc, n => (acc, n, [])

/-- Regex `\d+` (maximal munch): at least one digit. -/
def parseDigits (cs : List Char) : Option (ℕ × ℕ × List Char) :=
  match cs with
  | c :: _ => if c.isDigit then some (digitsAux cs 0 0) else none
  | [] => none

/-- Regex `[-+]?\d+(?:\.\d+)?` followed by Python `float(...)` on the match:
the numeric value of one coordinate. -/
def parseNumber (cs : List Char) : Option (ℚ × List Char) :=
  let signRest : ℚ × List Char :=
    match cs with
    | '-' :: r => (-1, r)
    | '+' :: r => (1, r)
    | _ => (1, cs)
  match parseDigits signRest.2 with
  | none => none
  | some (ip, _, cs2) =>
    match cs2 with
    | '.' :: cs3 =>
      match parseDigits cs3 with
      | some (fp, n, cs4) => some (signRest.1 * ((ip : ℚ) + (fp : ℚ) / 10 ^ n), cs4)
      | none => some (signRest.1 * (ip : ℚ), cs2)
    | _ => some (signRest.1 * (ip : ℚ), cs2)

/-- Consume one expected literal character. -/
def expectChar (c : Char) : List Char → Option (List Char)
  | d :: r => if d = c then some r else none
  | [] => none

/-- Regex `\(num,num\)`: one coordinate pair. -/
def parsePair (cs : List Char) : Option (ℚ × ℚ × List Char) := do
  let cs ← expectChar '(' cs
  let (a, cs) ← parseNumber cs
  let cs ← expectChar ',' cs
  let (b, cs) ← parseNumber cs
  let cs ← expectChar ')' cs
  some (a, b, cs)

/-- Regex `\(num,num\),\(num,num\)`: the coordinate tail after the text. -/
def parseTail (cs : List Char) : Option (ℚ × ℚ × ℚ × ℚ × List Char) := do
  let (x1, y1, cs) ← parsePair cs
  let cs ← expectChar ',' cs
  let (x2, y2, cs) ← parsePair cs
  some (x1, y1, x2, y2, cs)

/-- Try to match the full pattern at the current position: `acc` holds the
text characters consumed so far by the lazy group `([^()]+?)`.  On success
returns the parsed `TextBlock` (text stripped, pixel coordinates `None`, as
built at ocr_utils.py lines 120-128) and the unconsumed rest. -/
def matchFrom (acc : List Char) (cs : List Char) : Option (TextBlock × List Char) :=
  match cs with
  | [] => none
  | c :: rest =>
    if c = '(' || c = ')' then none
    else
      match parseTail rest with
      | some (x1, y1, x2, y2, cs2) =>
          some (⟨(pyStrip (acc ++ [c])).asString, x1, y1, x2, y2,
                 none, none, none, none⟩, cs2)
      | none => matchFrom (acc ++ [c]) rest

/-- `finditer` scan: collect leftmost non-overlapping matches; where no match
starts, slide one position right.  `fuel` bounds the recursion; every step
consumes at least one character, so any fuel ≥ length is exact. -/
def scanAux : ℕ → List Char → List TextBlock
  | 0, _ => []
  | _, [] => []
  | fuel + 1, c :: rest =>
    match matchFrom [] (c :: rest) with
    | some (blk, cs2) => blk :: scanAux fuel cs2
    | none => scanAux fuel rest

/-- ocr_utils.py lines 98-129: `parse_ocr_content`. -/
def parse_ocr_content (content : String) : List TextBlock :=
  scanAux content.toList.length content.toList

/-- Decidable scan for whether any position of the input carries a match of
the pattern (used to express "the input has zero valid entries"). -/
def hasMatchAux : ℕ → List Char → Bool
  | 0, _ => false
  | _, [] => false
  | fuel + 1, c :: rest => (matchFrom [] (c :: rest)).isSome || hasMatchAux fuel rest

/-- `hasMatch content` is true iff the pattern matches somewhere in `content`. -/
def hasMatch (content : String) : Bool :=
  hasMatchAux content.toList.length content.toList

/-! ### Image header sniffing (ocr_utils.py lines 241-288) -/

/-- Python bytes slicing `data[a:b]`: never raises, clamps to the data. -/
def pySlice (data : List ℕ) (a b : ℕ) : List ℕ := (data.drop a).take (b - a)

/-- Big-endian value of a byte run (struct `>` formats). -/
def beNat (bs : List ℕ) : ℕ := bs.foldl (fun acc byte => 256 * acc + byte) 0

/-- Little-endian value of a byte run (struct `<` formats). -/
def leNat (bs : List ℕ) : ℕ := bs.foldr (fun byte acc => byte + 256 * acc) 0

/-- `struct.unpack` with two equal-width integer fields: raises
`struct.error` unless the buffer is exactly `2 * width` bytes. -/
def structUnpack2 (conv : List ℕ → ℕ) (width : ℕ) (bs : List ℕ) :
    Except String (ℕ × ℕ) :=
  if bs.length = 2 * width then .ok (conv (bs.take width), conv (bs.drop width))
  else .error "struct.error"

/-- `struct.unpack` with one integer field: raises `struct.error` unless the
buffer is exactly `width` bytes. -/
def structUnpack1 (conv : List ℕ → ℕ) (width : ℕ) (bs : List ℕ) :
    Except String ℕ :=
  if bs.length = width then .ok (conv bs) else .error "struct.error"

/-- ocr_utils.py lines 260-276: the JPEG marker-walking `while` loop.  Python
`data[idx]` / `data[idx + 1]` raise `IndexError` when out of range, modelled
by the `.error` branches; the loop advances `idx` by at least one per
iteration, so `fuel = data.length + 1` is never exhausted from `idx = 2`. -/
def jpegLoop (data : List ℕ) : ℕ → ℕ → Except String (Option (ℕ × ℕ))
  | _, 0 => .error "out of fuel"
  | idx, fuel + 1 =>
    if idx < data.length then
      match data.get? idx with
      | none => .error "IndexError"
      | some b =>
        if b ≠ 255 then jpegLoop data (idx + 1) fuel
        else
          match data.get? (idx + 1) with
          | none => .error "IndexError"
          | some marker =>
            if marker = 0xd9 then .ok none
            else if marker = 0xc0 ∨ marker = 0xc2 then
              match structUnpack2 beNat 2 (pySlice data (idx + 5) (idx + 9)) with
              | .error e => .error e
              | .ok hw => .ok (some (hw.2, hw.1))
            else if marker ∈ [0xd0, 0xd1, 0xd2, 0xd3, 0xd4, 0xd5, 0xd6, 0xd7, 0xd8, 0x01] then
              jpegLoop data (idx + 2) fuel
            else
              match structUnpack1 beNat 2 (pySlice data (idx + 2) (idx + 4)) with
              | .error e => .error e
              | .ok len => jpegLoop data (idx + 2 + len) fuel
    else .ok none

/-- ocr_utils.py lines 241-288: `get_image_size_from_bytes`.  `.ok none`
models a normal `return None`; `.error` models an uncaught exception
(`struct.error` or `IndexError`) escaping the function. -/
def get_image_size_from_bytes (data : List ℕ) : Except String (Option (ℕ × ℕ)) :=
  if pySlice data 0 8 = [0x89, 0x50, 0x4E, 0x47, 0x0D, 0x0A, 0x1A, 0x0A] then
    (structUnpack2 beNat 4 (pySlice data 16 24)).map fun wh => some wh
  else if pySlice data 0 2 = [0xff, 0xd8] then
    jpegLoop data 2 (data.length + 1)
  else if pySlice data 0 6 = [0x47, 0x49, 0x46, 0x38, 0x37, 0x61]
      ∨ pySlice data 0 6 = [0x47, 0x49, 0x46, 0x38, 0x39, 0x61] then
    (structUnpack2 leNat 2 (pySlice data 6 10)).map fun wh => some wh
  else if pySlice data 0 2 = [0x42, 0x4D] then
    (structUnpack2 leNat 4 (pySlice data 18 26)).map fun wh => some wh
  else
    .ok none

/-! ### The web application (src/ocr_web_app.py) -/

/-- ocr_web_app.py lines 57-66: `COLOR_PALETTE`. -/
def COLOR_PALETTE : List String :=
  ["#f97316", "#22c55e", "#0ea5e9", "#a855f7",
   "#e11d48", "#06b6d4", "#d97706", "#10b981"]

/-- ocr_web_app.py line 135: the palette color drawn for the 1-based block
index `idx` inside `fetch_and_annotate_image`:
`COLOR_PALETTE[(idx - 1) % len(COLOR_PALETTE)]`. -/
def annotatorColor (idx : ℕ) : String :=
  COLOR_PALETTE.getD ((idx - 1) % COLOR_PALETTE.length) ""

/-- A box as drawn on the image, after ordering and clamping. -/
structure DrawnBox where
  x1 : ℤ
  y1 : ℤ
  x2 : ℤ
  y2 : ℤ
deriving DecidableEq, Repr

/-- ocr_web_app.py lines 138-149 (inside `fetch_and_annotate_image`): per-box
post-processing before drawing.  `None` pixel coordinates default to 0,
`sorted` on a pair is (min, max), then each coordinate is clamped with
`max(0, min(v, dimension - 1))`. -/
def drawnBox (block : TextBlock) (width height : ℕ) : DrawnBox :=
  let x1 := block.pixel_x1.getD 0
  let y1 := block.pixel_y1.getD 0
  let x2 := block.pixel_x2.getD 0
  let y2 := block.pixel_y2.getD 0
  { x1 := max 0 (min (min x1 x2) ((width : ℤ) - 1))
    y1 := max 0 (min (min y1 y2) ((height : ℤ) - 1))
    x2 := max 0 (min (max x1 x2) ((width : ℤ) - 1))
    y2 := max 0 (min (max y1 y2) ((height : ℤ) - 1)) }

/-- The nested `pixel` JSON object of one `blocks_response` entry
(ocr_web_app.py lines 322-329). -/
structure PixelInfo where
  x1 : Option ℤ
  y1 : Option ℤ
  x2 : Option ℤ
  y2 : Option ℤ
  width : Option ℤ
  height : Option ℤ
deriving DecidableEq, Repr

/-- One entry of the `blocks_response` JSON list built by `api_ocr`
(ocr_web_app.py lines 304-346).  `Option` fields model JSON values that may
be `null` or keys that may be absent (`pixel`). -/
structure BlockEntry where
  index : ℕ
  text : String
  color : String
  norm_x1 : ℚ
  norm_y1 : ℚ
  norm_x2 : ℚ
  norm_y2 : ℚ
  norm_w : ℚ
  norm_h : ℚ
  pixel : Option PixelInfo
  x1 : Option ℚ
  y1 : Option ℚ
  x2 : Option ℚ
  y2 : Option ℚ
  width : Option ℚ
  height : Option ℚ
deriving DecidableEq, Repr

/-- ocr_web_app.py lines 305-346: build one `blocks_response` entry from the
0-based `enumerate` index and a block.  The `pixel` key and pixel-valued
top-level coordinates are present exactly when `block.pixel_x1 is not
None`; otherwise the top-level coordinates repeat the normalized values. -/
def buildBlockEntry (idx : ℕ) (block : TextBlock) : BlockEntry :=
  match block.pixel_x1 with
  | some px1 =>
    { index := idx + 1
      text := block.text
      color := COLOR_PALETTE.getD (idx % COLOR_PALETTE.length) ""
      norm_x1 := block.norm_x1
      norm_y1 := block.norm_y1
      norm_x2 := block.norm_x2
      norm_y2 := block.norm_y2
      norm_w := block.norm_width
      norm_h := block.norm_height
      pixel := some ⟨some px1, block.pixel_y1, block.pixel_x2, block.pixel_y2,
                     block.pixel_width, block.pixel_height⟩
      x1 := some (px1 : ℚ)
      y1 := block.pixel_y1.map fun z => (z : ℚ)
      x2 := block.pixel_x2.map fun z => (z : ℚ)
      y2 := block.pixel_y2.map fun z => (z : ℚ)
      width := block.pixel_width.map fun z => (z : ℚ)
      height := block.pixel_height.map fun z => (z : ℚ) }
  | none =>
    { index := idx + 1
      text := block.text
      color := COLOR_PALETTE.getD (idx % COLOR_PALETTE.length) ""
      norm_x1 := block.norm_x1
      norm_y1 := block.norm_y1
      norm_x2 := block.norm_x2
      norm_y2 := block.norm_y2
      norm_w := block.norm_width
      norm_h := block.norm_height
      pixel := none
      x1 := some block.norm_x1
      y1 := some block.norm_y1
      x2 := some block.norm_x2
      y2 := some block.norm_y2
      width := some block.norm_width
      height := some block.norm_height }

/-- The 200-response JSON payload of `/api/ocr` (ocr_web_app.py lines
348-367), restricted to the fields the claims are about. -/
structure ApiOcrResponse where
  raw_text : String
  blocks : List BlockEntry
  image_with_boxes : Option String
  image_size : Option (ℕ × ℕ)
  scale_x : Option ℚ
  scale_y : Option ℚ
deriving DecidableEq, Repr

/-- ocr_web_app.py lines 251-367, the success path of `api_ocr` after
`call_ocr` returned: parse the raw text (lines 262-263; empty `raw_text` is
falsy, so yields `[]`), and if blocks were found run the inner `try` of
lines 270-299.  `fetch` models the outcome of that whole inner block (image
download, decode, EXIF transpose and annotation): any exception inside it
lands in the `except` at line 295, which falls back to the unconverted
blocks and `image_size = None`.  The annotated image string is abstracted
to an opaque data URI. -/
def api_ocr_success (raw_text : String) (fetch : Except String (ℕ × ℕ)) :
    ApiOcrResponse :=
  let blocks := if raw_text = "" then [] else parse_ocr_content raw_text
  let state : List TextBlock × Option (ℕ × ℕ) × Option (ℚ × ℚ) × Option String :=
    if blocks.isEmpty then ([], none, none, none)
    else
      match fetch with
      | .ok wh =>
          (convert_blocks_to_pixels blocks wh.1 wh.2 HUNYUAN_COORD_RANGE,
           some wh,
           some (get_scale_factors wh.1 wh.2 HUNYUAN_COORD_RANGE),
           some "data:image/png;base64,encoded")
      | .error _ => (blocks, none, none, none)
  { raw_text := raw_text
    blocks := state.1.enum.map fun p => buildBlockEntry p.1 p.2
    image_with_boxes := state.2.2.2
    image_size := state.2.1
    scale_x := state.2.2.1.map Prod.fst
    scale_y := state.2.2.1.map Prod.snd }

/-- Exceptions of the `requests` library as they matter to `api_ocr`:
`requests.HTTPError` (raised by `raise_for_status`) is caught separately at
ocr_web_app.py line 368; network-level failures such as
`requests.ConnectionError` or `requests.Timeout` are siblings of
`HTTPError` under `RequestException`, not subclasses of it, so they only
match the generic `except Exception` at line 370. -/
inductive PyExc where
  | httpError (msg : String)
  | otherExc (msg : String)
deriving DecidableEq, Repr

/-- `requests.Response.raise_for_status`: raises `requests.HTTPError` iff
the status code is in [400, 600). -/
def raise_for_status (status : ℕ) : Except PyExc Unit :=
  if 400 ≤ status ∧ status < 600 then
    .error (.httpError (toString status ++ " error for url"))
  else .ok ()

/-- One attempted upstream OCR HTTP round trip: either a network-level
failure, or an HTTP reply with a status code and the (possibly absent)
`choices[0].message.content` string of its JSON body. -/
inductive UpstreamOutcome where
  | netFail (msg : String)
  | reply (status : ℕ) (content : Option String)
deriving DecidableEq, Repr

/-- ocr_web_app.py lines 167-192: `call_ocr` posts once to the endpoint and
calls `raise_for_status` on the reply; a network failure surfaces as a
non-`HTTPError` exception. -/
def call_ocr (outcome : UpstreamOutcome) : Except PyExc (Option String) :=
  match outcome with
  | .netFail m => .error (.otherExc m)
  | .reply status content =>
    match raise_for_status status with
    | .error e => .error e
    | .ok _ => .ok content

/-- The HTTP result of a `/api/ocr` request: a 200 payload, or an error
payload with its HTTP status. -/
inductive ApiResult where
  | success (resp : ApiOcrResponse) (httpStatus : ℕ)
  | failure (error : String) (httpStatus : ℕ)
deriving DecidableEq, Repr

/-- ocr_web_app.py lines 220-371: the `/api/ocr` handler around its single
`call_ocr` invocation (line 254 — there is no retry loop).  `first` is the
outcome of that one upstream round trip and `later` the outcomes further
attempts would see; the handler consumes only `first` and returns `later`
untouched.  Lines 257-263 extract `choices[0].message.content` (missing or
empty content leaves `raw_text = ""`).  The `except requests.HTTPError`
arm (lines 368-369) answers 502 with the message prefixed by
`"OCR request failed: "`; the generic `except Exception` arm (lines
370-371) answers 500 with the bare message. -/
def api_ocr (first : UpstreamOutcome) (later : List UpstreamOutcome)
    (fetch : Except String (ℕ × ℕ)) : ApiResult × List UpstreamOutcome :=
  (match call_ocr first with
   | .ok content => .success (api_ocr_success (content.getD "") fetch) 200
   | .error (.httpError m) => .failure ("OCR request failed: " ++ m) 502
   | .error (.otherExc m) => .failure m 500,
   later)

/-! ### Helper lemmas -/

/-- `pyInt` on an integer value is the identity. -/
theorem pyInt_intCast (n : ℤ) : pyInt ((n : ℚ)) = n := by
  unfold pyInt
  split
  · exact Int.floor_intCast n
  · exact Int.ceil_intCast n

/-- `Forall₂` between a list and its image under a map. -/
theorem forall2_map_of_mem {α β : Type} {f : α → β} {R : α → β → Prop}
    {l : List α} (h : ∀ x ∈ l, R x (f x)) : List.Forall₂ R l (l.map f) := by
  induction l with
  | nil => exact List.Forall₂.nil
  | cons a as ih =>
      exact List.Forall₂.cons (h a (List.mem_cons_self a as))
        (ih fun x hx => h x (List.mem_cons_of_mem a hx))

/-- `Forall₂` between a list and the image of its enumeration under a map. -/
theorem forall2_enumFrom_map_of_mem {α β : Type} {f : ℕ × α → β} {R : α → β → Prop} :
    ∀ (n : ℕ) (l : List α), (∀ (i : ℕ), ∀ x ∈ l, R x (f (i, x))) →
      List.Forall₂ R l ((List.enumFrom n l).map f)
  | _, [], _ => List.Forall₂.nil
  | n, a :: as, h =>
      List.Forall₂.cons (h n a (List.mem_cons_self a as))
        (forall2_enumFrom_map_of_mem (n + 1) as
          fun i x hx => h i x (List.mem_cons_of_mem a hx))

/-! ### Claim C1 -/

/-- C1 counterexample: under the documented unit-interval rule, a batch of
boxes all inside [0,1] would have x multiplied by the width and y by the
height, so box (0.5,0.5,1.0,1.0) on an 800×600 image would become
(400,300,800,600).  The code has no unit-interval detection: `rescale_blocks_to_image` always divides by
the fixed range 1000, so that box becomes (0,0,0,0) ≠ (400,300,800,600). -/
theorem C1_counterexample :
    (rescale_blocks_to_image [⟨"t", 1/2, 1/2, 1, 1, none, none, none, none⟩]
        (800, 600)).map (fun b => (b.pixel_x1, b.pixel_y1, b.pixel_x2, b.pixel_y2))
      = [(some 0, some 0, some 0, some 0)]
    ∧ [((some 0 : Option ℤ), (some 0 : Option ℤ), (some 0 : Option ℤ), (some 0 : Option ℤ))]
      ≠ [((some 400 : Option ℤ), (some 300 : Option ℤ), (some 800 : Option ℤ),
          (some 600 : Option ℤ))] := by
  constructor
  · norm_num [rescale_blocks_to_image, convert_blocks_to_pixels, get_scale_factors,
      HUNYUAN_COORD_RANGE, pyInt, Int.floor_eq_iff]
  · decide

/-- C1 (amended): even when every coordinate of every box lies in [0,1], the
Rescaler applies the same fixed [0,1000] conversion it applies to any batch:
each x is multiplied by width/1000, each y by height/1000, truncating toward
zero — so box (0.5,0.5,1.0,1.0) on an 800×600 image yields (0,0,0,0). -/
theorem C1_amended_fixed_range (blocks : List TextBlock)
    (hunit : ∀ b ∈ blocks,
      0 ≤ b.norm_x1 ∧ b.norm_x1 ≤ 1 ∧ 0 ≤ b.norm_y1 ∧ b.norm_y1 ≤ 1 ∧
      0 ≤ b.norm_x2 ∧ b.norm_x2 ≤ 1 ∧ 0 ≤ b.norm_y2 ∧ b.norm_y2 ≤ 1) :
    List.Forall₂ (fun b c =>
      c.pixel_x1 = some (pyInt (b.norm_x1 * ((800 : ℚ) / 1000))) ∧
      c.pixel_y1 = some (pyInt (b.norm_y1 * ((600 : ℚ) / 1000))) ∧
      c.pixel_x2 = some (pyInt (b.norm_x2 * ((800 : ℚ) / 1000))) ∧
      c.pixel_y2 = some (pyInt (b.norm_y2 * ((600 : ℚ) / 1000))))
      blocks (rescale_blocks_to_image blocks (800, 600)) := by
  simp only [rescale_blocks_to_image, convert_blocks_to_pixels]
  apply forall2_map_of_mem
  intro x _
  norm_num [get_scale_factors, HUNYUAN_COORD_RANGE]

/-- Witness for C1: instantiates `C1_amended_fixed_range` at the single box
(0.5,0.5,1.0,1.0), whose coordinates all lie in [0,1]. -/
theorem C1_amended_witness :
    (∀ b ∈ [(⟨"t", 1/2, 1/2, 1, 1, none, none, none, none⟩ : TextBlock)],
      0 ≤ b.norm_x1 ∧ b.norm_x1 ≤ 1 ∧ 0 ≤ b.norm_y1 ∧ b.norm_y1 ≤ 1 ∧
      0 ≤ b.norm_x2 ∧ b.norm_x2 ≤ 1 ∧ 0 ≤ b.norm_y2 ∧ b.norm_y2 ≤ 1) ∧
    List.Forall₂ (fun b c =>
      c.pixel_x1 = some (pyInt (b.norm_x1 * ((800 : ℚ) / 1000))) ∧
      c.pixel_y1 = some (pyInt (b.norm_y1 * ((600 : ℚ) / 1000))) ∧
      c.pixel_x2 = some (pyInt (b.norm_x2 * ((800 : ℚ) / 1000))) ∧
      c.pixel_y2 = some (pyInt (b.norm_y2 * ((600 : ℚ) / 1000))))
      [(⟨"t", 1/2, 1/2, 1, 1, none, none, none, none⟩ : TextBlock)]
      (rescale_blocks_to_image [⟨"t", 1/2, 1/2, 1, 1, none, none, none, none⟩]
        (800, 600)) := by
  have hunit : ∀ b ∈ [(⟨"t", 1/2, 1/2, 1, 1, none, none, none, none⟩ : TextBlock)],
      0 ≤ b.norm_x1 ∧ b.norm_x1 ≤ 1 ∧ 0 ≤ b.norm_y1 ∧ b.norm_y1 ≤ 1 ∧
      0 ≤ b.norm_x2 ∧ b.norm_x2 ≤ 1 ∧ 0 ≤ b.norm_y2 ∧ b.norm_y2 ≤ 1 := by
    intro b hb
    rw [List.mem_singleton] at hb
    subst hb
    norm_num
  exact ⟨hunit, C1_amended_fixed_range _ hunit⟩

/-! ### Claim C2 -/

/-- C2 counterexample: under the documented max-ratio heuristic, with
`maxX = 500` and image width 800 (ratio 1.6 > 1.1) the back-compat Rescaler
would upscale x by 1.6, so a box with `norm_x2 = 500` would get
`pixel_x2 = 800`.  The code has no such
heuristic: `rescale_blocks_to_image` is a plain wrapper around the fixed
[0,1000] conversion and yields `pixel_x2 = int(500 * 800/1000) = 400`. -/
theorem C2_counterexample :
    (rescale_blocks_to_image [⟨"t", 0, 0, 500, 500, none, none, none, none⟩]
        (800, 600)).map (fun b => b.pixel_x2) = [some 400]
    ∧ [(some 400 : Option ℤ)] ≠ [(some 800 : Option ℤ)] := by
  constructor
  · norm_num [rescale_blocks_to_image, convert_blocks_to_pixels, get_scale_factors,
      HUNYUAN_COORD_RANGE, pyInt, Int.floor_eq_iff]
  · decide

/-- C2 (amended): the back-compat `rescale_blocks_to_image` applies no
max-coordinate ratio heuristic and no 1.1 threshold: for every batch and
every image size it scales every x-coordinate by width/1000 and every
y-coordinate by height/1000, truncating toward zero (so `maxX = 500` with
width 800 yields 400, not 800, and `maxX = 780` yields 624, not 780). -/
theorem C2_amended_no_heuristic (blocks : List TextBlock) (image_size : ℕ × ℕ) :
    List.Forall₂ (fun b c =>
      c.pixel_x1 = some (pyInt (b.norm_x1 * ((image_size.1 : ℚ) / 1000))) ∧
      c.pixel_y1 = some (pyInt (b.norm_y1 * ((image_size.2 : ℚ) / 1000))) ∧
      c.pixel_x2 = some (pyInt (b.norm_x2 * ((image_size.1 : ℚ) / 1000))) ∧
      c.pixel_y2 = some (pyInt (b.norm_y2 * ((image_size.2 : ℚ) / 1000))))
      blocks (rescale_blocks_to_image blocks image_size) := by
  simp only [rescale_blocks_to_image, convert_blocks_to_pixels]
  apply forall2_map_of_mem
  intro x _
  norm_num [get_scale_factors, HUNYUAN_COORD_RANGE]

/-! ### Claim C5 -/

/-- C5: for positive `dim` and `coord_range` and any pixel coordinate `p`
with `0 ≤ p ≤ dim`, converting to normalized coordinates with
`pixel_to_normalized` and back with `normalized_to_pixel` (which truncates
toward zero) recovers `p` within one unit.  In exact arithmetic the
round-trip is exact, so the difference is 0 ≤ 1. -/
theorem C5_round_trip (p : ℤ) (dim coord_range : ℕ)
    (hdim : 0 < dim) (hrange : 0 < coord_range) (hp0 : 0 ≤ p) (hp : p ≤ (dim : ℤ)) :
    |(normalized_to_pixel (pixel_to_normalized p p dim dim coord_range).1
        (pixel_to_normalized p p dim dim coord_range).2 dim dim coord_range).1 - p| ≤ 1
    ∧ |(normalized_to_pixel (pixel_to_normalized p p dim dim coord_range).1
        (pixel_to_normalized p p dim dim coord_range).2 dim dim coord_range).2 - p| ≤ 1 := by
  have hd : (dim : ℚ) ≠ 0 := Nat.cast_ne_zero.mpr hdim.ne'
  have hr : (coord_range : ℚ) ≠ 0 := Nat.cast_ne_zero.mpr hrange.ne'
  have key : ((p : ℚ) * ((coord_range : ℚ) / (dim : ℚ))) * ((dim : ℚ) / (coord_range : ℚ))
      = (p : ℚ) := by
    field_simp
  simp [normalized_to_pixel, pixel_to_normalized, key, pyInt_intCast]

/-- Witness for C5: the round trip at `p = 375`, `dim = 800`,
`coord_range = 1000`. -/
theorem C5_round_trip_witness :
    (0 < 800) ∧ (0 < 1000) ∧ ((0 : ℤ) ≤ 375) ∧ ((375 : ℤ) ≤ (800 : ℕ)) ∧
    (|(normalized_to_pixel (pixel_to_normalized 375 375 800 800 1000).1
        (pixel_to_normalized 375 375 800 800 1000).2 800 800 1000).1 - 375| ≤ 1
      ∧ |(normalized_to_pixel (pixel_to_normalized 375 375 800 800 1000).1
        (pixel_to_normalized 375 375 800 800 1000).2 800 800 1000).2 - 375| ≤ 1) :=
  ⟨by norm_num, by norm_num, by norm_num, by norm_num,
    C5_round_trip 375 800 1000 (by norm_num) (by norm_num) (by norm_num) (by norm_num)⟩

/-! ### Claim C8 -/

/-- C8: `convert_blocks_to_pixels` produces new `TextBlock`s and never
mutates the originals (the embedding is a pure map because the source
constructs a fresh `TextBlock(...)` per input and never assigns to input
fields): every output block carries the same text and normalized
coordinates as the corresponding input block, with all four pixel
coordinates filled in as `int(norm * dimension/range)`. -/
theorem C8_convert_builds_new_blocks (blocks : List TextBlock) (w h r : ℕ) :
    List.Forall₂ (fun b c =>
      c.text = b.text ∧
      c.norm_x1 = b.norm_x1 ∧ c.norm_y1 = b.norm_y1 ∧
      c.norm_x2 = b.norm_x2 ∧ c.norm_y2 = b.norm_y2 ∧
      c.pixel_x1 = some (pyInt (b.norm_x1 * ((w : ℚ) / (r : ℚ)))) ∧
      c.pixel_y1 = some (pyInt (b.norm_y1 * ((h : ℚ) / (r : ℚ)))) ∧
      c.pixel_x2 = some (pyInt (b.norm_x2 * ((w : ℚ) / (r : ℚ)))) ∧
      c.pixel_y2 = some (pyInt (b.norm_y2 * ((h : ℚ) / (r : ℚ)))))
      blocks (convert_blocks_to_pixels blocks w h r) := by
  simp only [convert_blocks_to_pixels]
  apply forall2_map_of_mem
  intro x _
  simp [get_scale_factors]

/-! ### Claim C9 -/

/-- C9: colors are assigned cyclically by index modulo the palette length:
the entry built for 0-based position `j` (reported index `j + 1`) carries
exactly the color the Annotator draws for 1-based index `j + 1`, namely
`COLOR_PALETTE[(idx - 1) % len]`; index 1 gets palette[0] and index
`len + 1` gets palette[0] again. -/
theorem C9_palette_cycling :
    (∀ (j : ℕ) (b : TextBlock), (buildBlockEntry j b).color = annotatorColor (j + 1))
    ∧ annotatorColor 1 = COLOR_PALETTE.getD 0 ""
    ∧ annotatorColor (COLOR_PALETTE.length + 1) = COLOR_PALETTE.getD 0 "" := by
  refine ⟨fun j b => ?_, by decide, by decide⟩
  cases hb : b.pixel_x1 <;>
    simp [buildBlockEntry, hb, annotatorColor, Nat.add_sub_cancel]

/-! ### Claim C3 -/

/-- C3: for every box produced by the rescaling pipeline
(`convert_blocks_to_pixels`), the per-box post-processing of
`fetch_and_annotate_image` orders the corners so that x1 ≤ x2 and y1 ≤ y2
and clamps all four coordinates into [0, dimension-1]. -/
theorem C3_drawn_boxes_ordered_clamped (blocks : List TextBlock) (w h : ℕ)
    (hw : 0 < w) (hh : 0 < h) (b : TextBlock)
    (hb : b ∈ convert_blocks_to_pixels blocks w h HUNYUAN_COORD_RANGE) :
    (drawnBox b w h).x1 ≤ (drawnBox b w h).x2 ∧
    (drawnBox b w h).y1 ≤ (drawnBox b w h).y2 ∧
    0 ≤ (drawnBox b w h).x1 ∧ (drawnBox b w h).x2 ≤ (w : ℤ) - 1 ∧
    0 ≤ (drawnBox b w h).y1 ∧ (drawnBox b w h).y2 ≤ (h : ℤ) - 1 := by
  have hw1 : (0 : ℤ) ≤ (w : ℤ) - 1 := by
    have h1 : (1 : ℤ) ≤ (w : ℤ) := by exact_mod_cast hw
    omega
  have hh1 : (0 : ℤ) ≤ (h : ℤ) - 1 := by
    have h1 : (1 : ℤ) ≤ (h : ℤ) := by exact_mod_cast hh
    omega
  simp only [drawnBox]
  refine ⟨?_, ?_, le_max_left _ _, max_le hw1 (min_le_right _ _),
    le_max_left _ _, max_le hh1 (min_le_right _ _)⟩
  · exact max_le_max le_rfl (min_le_min (min_le_max) le_rfl)
  · exact max_le_max le_rfl (min_le_min (min_le_max) le_rfl)

/-- Witness for C3: the box (0,0,1500,500) on an 800×600 image converts to
pixel box (0,0,1200,300); its drawn x2 = 1200 exceeds the width and is
clamped to 799. -/
theorem C3_witness :
    (0 < 800) ∧ (0 < 600) ∧
    ((⟨"t", 0, 0, 1500, 500, some 0, some 0, some 1200, some 300⟩ : TextBlock)
      ∈ convert_blocks_to_pixels [⟨"t", 0, 0, 1500, 500, none, none, none, none⟩]
          800 600 HUNYUAN_COORD_RANGE) ∧
    (drawnBox ⟨"t", 0, 0, 1500, 500, some 0, some 0, some 1200, some 300⟩ 800 600).x2
      = 799 ∧
    ((drawnBox ⟨"t", 0, 0, 1500, 500, some 0, some 0, some 1200, some 300⟩ 800 600).x1
        ≤ (drawnBox ⟨"t", 0, 0, 1500, 500, some 0, some 0, some 1200, some 300⟩ 800 600).x2 ∧
      (drawnBox ⟨"t", 0, 0, 1500, 500, some 0, some 0, some 1200, some 300⟩ 800 600).y1
        ≤ (drawnBox ⟨"t", 0, 0, 1500, 500, some 0, some 0, some 1200, some 300⟩ 800 600).y2 ∧
      0 ≤ (drawnBox ⟨"t", 0, 0, 1500, 500, some 0, some 0, some 1200, some 300⟩ 800 600).x1 ∧
      (drawnBox ⟨"t", 0, 0, 1500, 500, some 0, some 0, some 1200, some 300⟩ 800 600).x2
        ≤ (800 : ℤ) - 1 ∧
      0 ≤ (drawnBox ⟨"t", 0, 0, 1500, 500, some 0, some 0, some 1200, some 300⟩ 800 600).y1 ∧
      (drawnBox ⟨"t", 0, 0, 1500, 500, some 0, some 0, some 1200, some 300⟩ 800 600).y2
        ≤ (600 : ℤ) - 1) := by
  have hmem : (⟨"t", 0, 0, 1500, 500, some 0, some 0, some 1200, some 300⟩ : TextBlock)
      ∈ convert_blocks_to_pixels [⟨"t", 0, 0, 1500, 500, none, none, none, none⟩]
          800 600 HUNYUAN_COORD_RANGE := by
    norm_num [convert_blocks_to_pixels, get_scale_factors, HUNYUAN_COORD_RANGE,
      pyInt, Int.floor_eq_iff]
  exact ⟨by norm_num, by norm_num, hmem, by decide,
    C3_drawn_boxes_ordered_clamped _ 800 600 (by norm_num) (by norm_num) _ hmem⟩

/-! ### Claim C4 -/

/-- C4 counterexample: not every upstream failure is reported as the
distinct "OCR request failed" condition.  A network-level failure is not a
`requests.HTTPError`, so it falls to the generic handler: the response is
the bare message with HTTP 500, not the prefixed 502 condition. -/
theorem C4_counterexample :
    api_ocr (.netFail "connection timed out") [] (.ok (800, 600))
      = (.failure "connection timed out" 500, [])
    ∧ (ApiResult.failure "connection timed out" 500
        ≠ ApiResult.failure ("OCR request failed: " ++ "connection timed out") 502) :=
  ⟨rfl, by decide⟩

/-- C4 (amended): a 4xx/5xx upstream HTTP status (raised by
`raise_for_status` as `requests.HTTPError`) is reported as the distinct
"OCR request failed: ..." condition with HTTP 502; an upstream network
error is caught by the generic handler and reported with only the
underlying message and HTTP 500.  In both cases the handler consumes only
the single outcome of its one `call_ocr` invocation — the later attempts
are returned untouched, i.e. the request is not retried. -/
theorem C4_amended_error_dispatch (status : ℕ) (content : Option String) (m : String)
    (later : List UpstreamOutcome) (fetch : Except String (ℕ × ℕ))
    (hbad : 400 ≤ status ∧ status < 600) :
    api_ocr (.reply status content) later fetch
      = (.failure ("OCR request failed: " ++ (toString status ++ " error for url")) 502,
         later)
    ∧ api_ocr (.netFail m) later fetch = (.failure m 500, later) := by
  constructor
  · simp [api_ocr, call_ocr, raise_for_status, hbad]
  · rfl

/-- Witness for C4: instantiates `C4_amended_error_dispatch` at a 502
upstream status and a network timeout. -/
theorem C4_amended_witness :
    (400 ≤ 502 ∧ 502 < 600) ∧
    (api_ocr (.reply 502 none) [] (.ok (800, 600))
        = (.failure ("OCR request failed: " ++ (toString 502 ++ " error for url")) 502, [])
      ∧ api_ocr (.netFail "timeout") [] (.ok (800, 600)) = (.failure "timeout" 500, [])) :=
  ⟨by decide, C4_amended_error_dispatch 502 none "timeout" [] (.ok (800, 600)) (by decide)⟩

/-! ### Claim C7 -/

/-- If the decidable scan reports no match, then no suffix carries a match. -/
theorem hasMatchAux_false (fuel : ℕ) : ∀ (cs : List Char), cs.length ≤ fuel →
    hasMatchAux fuel cs = false → ∀ n, matchFrom [] (cs.drop n) = none := by
  induction fuel with
  | zero =>
      intro cs hlen _ n
      have hnil : cs = [] := List.length_eq_zero.mp (Nat.le_zero.mp hlen)
      subst hnil
      simp [matchFrom]
  | succ fuel ih =>
      intro cs hlen hfalse n
      cases cs with
      | nil => simp [matchFrom]
      | cons c rest =>
          rw [hasMatchAux, Bool.or_eq_false_iff] at hfalse
          cases n with
          | zero =>
              cases hM : matchFrom [] (c :: rest) with
              | none => simpa using hM
              | some pr => rw [hM] at hfalse; simp at hfalse
          | succ n =>
              rw [List.drop_succ_cons]
              exact ih rest (Nat.le_of_succ_le_succ (by simpa using hlen)) hfalse.2 n

/-- If no suffix carries a match, the scan collects nothing. -/
theorem scanAux_nil_of_no_match (fuel : ℕ) : ∀ (cs : List Char),
    (∀ n, matchFrom [] (cs.drop n) = none) → scanAux fuel cs = [] := by
  induction fuel with
  | zero => intro cs _; cases cs <;> rfl
  | succ fuel ih =>
      intro cs h
      cases cs with
      | nil => rfl
      | cons c rest =>
          have h0 : matchFrom [] (c :: rest) = none := by simpa using h 0
          rw [scanAux, h0]
          exact ih rest fun n => by simpa [List.drop_succ_cons] using h (n + 1)

/-- C7: `parse_ocr_content` is total by construction (its embedding is a
structurally recursive function of the input characters, and the source
regex scan and `float(...)` on guaranteed-numeric matches cannot raise);
on any input in which no position matches the `TEXT(x1,y1),(x2,y2)`
pattern it returns the empty list, not an error. -/
theorem C7_no_valid_entries (content : String) (h : hasMatch content = false) :
    parse_ocr_content content = [] :=
  scanAux_nil_of_no_match _ _ (hasMatchAux_false _ _ le_rfl h)

/-- Witness for C7: a prompt-like string with no coordinate entries parses
to the empty list. -/
theorem C7_witness :
    hasMatch "Detect and recognize text in the image." = false ∧
    parse_ocr_content "Detect and recognize text in the image." = [] :=
  ⟨by decide, C7_no_valid_entries _ (by decide)⟩

/-! ### Claim C10 -/

/-- C10: on any byte string whose leading bytes match none of the PNG,
JPEG, GIF87a/GIF89a or BMP magic signatures, `get_image_size_from_bytes`
reaches its final `return None` without raising. -/
theorem C10_unrecognized_returns_none (data : List ℕ)
    (hpng : pySlice data 0 8 ≠ [0x89, 0x50, 0x4E, 0x47, 0x0D, 0x0A, 0x1A, 0x0A])
    (hjpeg : pySlice data 0 2 ≠ [0xff, 0xd8])
    (hgif87 : pySlice data 0 6 ≠ [0x47, 0x49, 0x46, 0x38, 0x37, 0x61])
    (hgif89 : pySlice data 0 6 ≠ [0x47, 0x49, 0x46, 0x38, 0x39, 0x61])
    (hbmp : pySlice data 0 2 ≠ [0x42, 0x4D]) :
    get_image_size_from_bytes data = .ok none := by
  unfold get_image_size_from_bytes
  rw [if_neg hpng, if_neg hjpeg, if_neg (not_or.mpr ⟨hgif87, hgif89⟩), if_neg hbmp]

/-- Witness for C10: four bytes recognized by no branch. -/
theorem C10_witness :
    (pySlice [0, 1, 2, 3] 0 8 ≠ [0x89, 0x50, 0x4E, 0x47, 0x0D, 0x0A, 0x1A, 0x0A]) ∧
    (pySlice [0, 1, 2, 3] 0 2 ≠ [0xff, 0xd8]) ∧
    (pySlice [0, 1, 2, 3] 0 6 ≠ [0x47, 0x49, 0x46, 0x38, 0x37, 0x61]) ∧
    (pySlice [0, 1, 2, 3] 0 6 ≠ [0x47, 0x49, 0x46, 0x38, 0x39, 0x61]) ∧
    (pySlice [0, 1, 2, 3] 0 2 ≠ [0x42, 0x4D]) ∧
    get_image_size_from_bytes [0, 1, 2, 3] = .ok none :=
  ⟨by decide, by decide, by decide, by decide, by decide,
    C10_unrecognized_returns_none [0, 1, 2, 3] (by decide) (by decide) (by decide)
      (by decide) (by decide)⟩

/-! ### Claim C6 -/

/-- A successful pattern match builds its `TextBlock` with all pixel
coordinates `None` (ocr_utils.py lines 120-128 pass only text and the four
normalized coordinates). -/
theorem matchFrom_pixel_none (cs : List Char) : ∀ (acc : List Char) (blk : TextBlock)
    (rest : List Char), matchFrom acc cs = some (blk, rest) →
    blk.pixel_x1 = none ∧ blk.pixel_y1 = none ∧ blk.pixel_x2 = none ∧
    blk.pixel_y2 = none := by
  induction cs with
  | nil => intro acc blk rest h; simp [matchFrom] at h
  | cons c cs ih =>
      intro acc blk rest h
      rw [matchFrom] at h
      split at h
      · simp at h
      · split at h
        · simp only [Option.some_inj, Prod.mk.injEq] at h
          obtain ⟨hblk, -⟩ := h
          subst hblk
          simp
        · exact ih (acc ++ [c]) blk rest h

/-- Every block collected by the scan has all pixel coordinates `None`. -/
theorem scanAux_pixel_none (fuel : ℕ) : ∀ (cs : List Char) (b : TextBlock),
    b ∈ scanAux fuel cs →
    b.pixel_x1 = none ∧ b.pixel_y1 = none ∧ b.pixel_x2 = none ∧ b.pixel_y2 = none := by
  induction fuel with
  | zero => intro cs b hb; cases cs <;> simp [scanAux] at hb
  | succ fuel ih =>
      intro cs b hb
      cases cs with
      | nil => simp [scanAux] at hb
      | cons c rest =>
          cases hM : matchFrom [] (c :: rest) with
          | none =>
              rw [scanAux, hM] at hb
              exact ih rest b hb
          | some pr =>
              obtain ⟨blk, cs2⟩ := pr
              rw [scanAux, hM] at hb
              rcases List.mem_cons.mp hb with rfl | hmem
              · exact matchFrom_pixel_none (c :: rest) [] b cs2 hM
              · exact ih cs2 b hmem

/-- Every block returned by the parser has all pixel coordinates `None`. -/
theorem parse_ocr_content_pixel_none (content : String) (b : TextBlock)
    (hb : b ∈ parse_ocr_content content) :
    b.pixel_x1 = none ∧ b.pixel_y1 = none ∧ b.pixel_x2 = none ∧ b.pixel_y2 = none :=
  scanAux_pixel_none _ _ b hb

/-- C6: if the image fetch for the dimension/annotation step fails after
blocks were parsed, `/api/ocr` still answers 200 and returns the parsed
blocks with normalized-only coordinates: no `pixel` object, top-level
coordinates equal to the normalized ones, `image_size`, annotated image and
scale factors all null. -/
theorem C6_graceful_fallback (content : String) (later : List UpstreamOutcome)
    (fetch_err : String) (hne : parse_ocr_content content ≠ []) :
    api_ocr (.reply 200 (some content)) later (.error fetch_err)
      = (.success (api_ocr_success content (.error fetch_err)) 200, later)
    ∧ (api_ocr_success content (.error fetch_err)).image_size = none
    ∧ (api_ocr_success content (.error fetch_err)).image_with_boxes = none
    ∧ (api_ocr_success content (.error fetch_err)).scale_x = none
    ∧ (api_ocr_success content (.error fetch_err)).scale_y = none
    ∧ List.Forall₂ (fun b e =>
        e.text = b.text ∧ e.pixel = none ∧
        e.x1 = some b.norm_x1 ∧ e.y1 = some b.norm_y1 ∧
        e.x2 = some b.norm_x2 ∧ e.y2 = some b.norm_y2)
      (parse_ocr_content content)
      (api_ocr_success content (.error fetch_err)).blocks := by
  have hcne : content ≠ "" := by
    intro hc
    subst hc
    exact hne rfl
  obtain ⟨b0, bs, hparse⟩ : ∃ b0 bs, parse_ocr_content content = b0 :: bs := by
    cases hp : parse_ocr_content content with
    | nil => exact absurd hp hne
    | cons x xs => exact ⟨x, xs, rfl⟩
  have hstate : api_ocr_success content (.error fetch_err) =
      { raw_text := content
        blocks := (parse_ocr_content content).enum.map fun p => buildBlockEntry p.1 p.2
        image_with_boxes := none
        image_size := none
        scale_x := none
        scale_y := none } := by
    rw [api_ocr_success]
    rw [if_neg hcne, hparse]
    simp
  refine ⟨?_, ?_, ?_, ?_, ?_, ?_⟩
  · simp [api_ocr, call_ocr, raise_for_status]
  · rw [hstate]
  · rw [hstate]
  · rw [hstate]
  · rw [hstate]
  · rw [hstate]
    rw [List.enum]
    apply forall2_enumFrom_map_of_mem
    intro i x hx
    obtain ⟨h1, h2, h3, h4⟩ := parse_ocr_content_pixel_none content x hx
    simp [buildBlockEntry, h1]

/-- Witness for C6: a content string with one valid entry; the fetch error
leaves a 200 answer with normalized-only coordinates. -/
theorem C6_witness :
    parse_ocr_content "hi(1,2),(3,4)" ≠ [] ∧
    (api_ocr (.reply 200 (some "hi(1,2),(3,4)")) [] (.error "Could not fetch image")
        = (.success (api_ocr_success "hi(1,2),(3,4)" (.error "Could not fetch image"))
            200, [])
      ∧ (api_ocr_success "hi(1,2),(3,4)" (.error "Could not fetch image")).image_size
          = none
      ∧ (api_ocr_success "hi(1,2),(3,4)" (.error "Could not fetch image")).image_with_boxes
          = none
      ∧ (api_ocr_success "hi(1,2),(3,4)" (.error "Could not fetch image")).scale_x = none
      ∧ (api_ocr_success "hi(1,2),(3,4)" (.error "Could not fetch image")).scale_y = none
      ∧ List.Forall₂ (fun b e =>
          e.text = b.text ∧ e.pixel = none ∧
          e.x1 = some b.norm_x1 ∧ e.y1 = some b.norm_y1 ∧
          e.x2 = some b.norm_x2 ∧ e.y2 = some b.norm_y2)
        (parse_ocr_content "hi(1,2),(3,4)")
        (api_ocr_success "hi(1,2),(3,4)" (.error "Could not fetch image")).blocks) :=
  ⟨by decide, C6_graceful_fallback "hi(1,2),(3,4)" [] "Could not fetch image" (by decide)⟩

end OcrApp
